import Mathlib

/-!
Verification of the pyEQL solute / equilibrium spec against the code.

Shallow embedding of the two source files:
  * pyEQL/solute.py        (class Solute: construction, parameter lookup, mobility)
  * src/pyEQL/equilibrium.py (adjust_temp_pitzer, adjust_temp_vanthoff,
                              adjust_temp_arrhenius, alpha)

Modelling conventions:
  * pint quantities are magnitude-unit pairs; only temperature units matter for
    the claims, so `Quantity` carries a temperature unit.  The conversion
    method to(K) of the source becomes `Quantity.toK`.  The internals of the
    dimensional engine are out of scope of the spec (section 1), so arithmetic
    on quantities acts on the magnitudes.
  * a site where the source logs an error and returns None is embedded as an
    `Except.error` carrying the error name the spec taxonomy (section 7) gives
    that site; a Python exception raised by the runtime is likewise an
    `Except.error` (`indexError`, `typeError`).
  * floats are real numbers; the Python expression 10 ** -x is `Real.rpow`.
-/

noncomputable section

/-- Error taxonomy of spec section 7 together with the Python runtime errors
the embedded code can raise. -/
inductive PyEQLError where
  | invalidFormula
  | speciesNotFound
  | parameterNotFound
  | invalidArgument
  | indexError
  | typeError
  deriving DecidableEq, Repr

/-- Temperature units relevant to the claims. -/
inductive TempUnit where
  | kelvin
  | degC
  deriving DecidableEq, Repr

/-- A dimensioned temperature: a pint quantity restricted to what the claims
need, a magnitude together with its temperature unit. -/
structure Quantity where
  mag : ℝ
  u : TempUnit

/-- Embedding of the pint conversion to("K"): the magnitude of the same
physical temperature expressed in kelvin. -/
def Quantity.toK (q : Quantity) : ℝ :=
  match q.u with
  | TempUnit.kelvin => q.mag
  | TempUnit.degC => q.mag + 273.15

/-- The molar gas constant ureg.R of the source, in J/(mol K). -/
def R_gas : ℝ := 8.31446261815324

/-- The Avogadro constant unit.N_A of the source, in 1/mol. -/
def N_A : ℝ := 6.02214076e23

/-- The elementary charge unit.e of the source, in C. -/
def e_charge : ℝ := 1.602176634e-19

/-- Default reference temperature of adjust_temp_pitzer in the source:
ureg.Quantity("298.15 K"). -/
def pitzer_ref_default : Quantity := ⟨298.15, TempUnit.kelvin⟩

/-- Default reference temperature of adjust_temp_vanthoff and
adjust_temp_arrhenius in the source: 25 * ureg.Quantity("degC"). -/
def vanthoff_ref_default : Quantity := ⟨25, TempUnit.degC⟩

/-- Embedding of adjust_temp_pitzer (equilibrium.py lines 39-46).  The source
applies the polynomial directly to `temp` and `temp_ref`; unlike the two
functions below it performs no conversion to("K"), so the magnitudes are used
in whatever unit the caller supplied. -/
def adjust_temp_pitzer (c1 c2 c3 c4 c5 : ℝ) (temp temp_ref : Quantity) : ℝ :=
  c1
    + c2 * (1 / temp.mag + 1 / temp_ref.mag)
    + c2 * Real.log (temp.mag / temp_ref.mag)
    + c3 * (temp.mag - temp_ref.mag)
    + c4 * (temp.mag ^ 2 - temp_ref.mag ^ 2)
    + c5 * (temp.mag ^ (-2 : ℤ) - temp_ref.mag ^ (-2 : ℤ))

/-- Embedding of adjust_temp_vanthoff (equilibrium.py lines 98-100): both
temperatures pass through to("K") before the formula is applied. -/
def adjust_temp_vanthoff (equilibrium_constant enthalpy : ℝ)
    (temperature reference_temperature : Quantity) : ℝ :=
  equilibrium_constant *
    Real.exp (enthalpy / R_gas * (1 / reference_temperature.toK - 1 / temperature.toK))

/-- Embedding of adjust_temp_arrhenius (equilibrium.py lines 162-164): same
arithmetic as adjust_temp_vanthoff, with the activation energy in place of the
enthalpy; both temperatures pass through to("K"). -/
def adjust_temp_arrhenius (rate_constant activation_energy : ℝ)
    (temperature reference_temperature : Quantity) : ℝ :=
  rate_constant *
    Real.exp (activation_energy / R_gas * (1 / reference_temperature.toK - 1 / temperature.toK))

/-- C7: for every equilibrium constant K, enthalpy dH and temperatures given in
celsius or in kelvin, adjust_temp_vanthoff returns
K * exp[(dH/R) * (1/T_ref - 1/T)] with both temperatures on the absolute
(kelvin) scale, and the default reference temperature is 298.15 K. -/
theorem vanthoff_formula_absolute_scale (K dH t tr : ℝ) :
    adjust_temp_vanthoff K dH ⟨t, TempUnit.degC⟩ ⟨tr, TempUnit.degC⟩ =
      K * Real.exp (dH / R_gas * (1 / (tr + 273.15) - 1 / (t + 273.15))) ∧
    adjust_temp_vanthoff K dH ⟨t, TempUnit.kelvin⟩ ⟨tr, TempUnit.kelvin⟩ =
      K * Real.exp (dH / R_gas * (1 / tr - 1 / t)) ∧
    vanthoff_ref_default.toK = 298.15 := by
  refine ⟨rfl, rfl, ?_⟩
  norm_num [vanthoff_ref_default, Quantity.toK]

/-- C8: for every c1..c5 and kelvin temperatures T and T_ref, the Pitzer-style
adjustment returns exactly
c1 + c2 (1/T + 1/Tref) + c2 ln(T/Tref) + c3 (T - Tref) + c4 (T^2 - Tref^2)
+ c5 (T^-2 - Tref^-2), with the one coefficient c2 applied to both the
reciprocal term and the logarithm term; the default reference quantity is
298.15 K. -/
theorem pitzer_formula_exact (c1 c2 c3 c4 c5 T Tref : ℝ) :
    adjust_temp_pitzer c1 c2 c3 c4 c5 ⟨T, TempUnit.kelvin⟩ ⟨Tref, TempUnit.kelvin⟩ =
      c1 + c2 * (1 / T + 1 / Tref) + c2 * Real.log (T / Tref)
        + c3 * (T - Tref) + c4 * (T ^ 2 - Tref ^ 2)
        + c5 * (T ^ (-2 : ℤ) - Tref ^ (-2 : ℤ)) ∧
    pitzer_ref_default = ⟨298.15, TempUnit.kelvin⟩ := by
  exact ⟨rfl, rfl⟩

/-- C5 (amended): adjust_temp_vanthoff and adjust_temp_arrhenius convert their
temperature arguments to kelvin internally, so physically equal temperatures
expressed in different units give equal results for those two functions;
adjust_temp_pitzer (see the counterexample) does not convert. -/
theorem vanthoff_arrhenius_unit_invariant (K dH : ℝ) (T1 T2 Tr1 Tr2 : Quantity)
    (hT : T1.toK = T2.toK) (hTr : Tr1.toK = Tr2.toK) :
    adjust_temp_vanthoff K dH T1 Tr1 = adjust_temp_vanthoff K dH T2 Tr2 ∧
    adjust_temp_arrhenius K dH T1 Tr1 = adjust_temp_arrhenius K dH T2 Tr2 := by
  rw [adjust_temp_vanthoff, adjust_temp_arrhenius, hT, hTr]
  exact ⟨rfl, rfl⟩

/-- C5 witness: the van t Hoff and Arrhenius adjustments at 25 degC / 0 degC
agree with the same adjustments at 298.15 K / 273.15 K. -/
theorem vanthoff_arrhenius_unit_invariant_witness :
    adjust_temp_vanthoff 1 1 ⟨25, TempUnit.degC⟩ ⟨0, TempUnit.degC⟩ =
      adjust_temp_vanthoff 1 1 ⟨298.15, TempUnit.kelvin⟩ ⟨273.15, TempUnit.kelvin⟩ ∧
    adjust_temp_arrhenius 1 1 ⟨25, TempUnit.degC⟩ ⟨0, TempUnit.degC⟩ =
      adjust_temp_arrhenius 1 1 ⟨298.15, TempUnit.kelvin⟩ ⟨273.15, TempUnit.kelvin⟩ :=
  vanthoff_arrhenius_unit_invariant 1 1 _ _ _ _
    (by norm_num [Quantity.toK]) (by norm_num [Quantity.toK])

/-! ### alpha: acid-base distribution coefficient (equilibrium.py lines 173-269) -/

/-- One full pass of the inner loop of alpha (equilibrium.py lines 252-253):
the factor the current k_term picks up at a given outer iteration, the product
of 10 ^ -pKa_list[i] over every i below `item`. -/
def kFactor (pKa_list : List ℝ) (item : ℕ) : ℝ :=
  ((pKa_list.take item).map (fun x => (10 : ℝ) ^ (-x))).prod

/-- The outer loop of alpha (equilibrium.py lines 250-256), carrying k_term
across iterations exactly as the source does (k_term is never reset between
iterations of the outer loop): at each iteration the inner loop multiplies
k_term by kFactor, then k_term * Hplus ^ (p - item) is appended.  The first
argument counts the iterations still to run. -/
def termsAux (pKa_list : List ℝ) (Hplus : ℝ) (p : ℕ) : ℕ → ℕ → ℝ → List ℝ
  | 0, _, _ => []
  | fuel + 1, item, k_term =>
    let k2 := k_term * kFactor pKa_list item
    k2 * Hplus ^ (p - item) :: termsAux pKa_list Hplus p fuel (item + 1) k2

/-- terms_list of the source: the outer loop runs for item = 0 .. num_protons
inclusive, with k_term starting at 1. -/
def terms_list (pKa_list : List ℝ) (Hplus : ℝ) : List ℝ :=
  termsAux pKa_list Hplus pKa_list.length (pKa_list.length + 1) 0 1

/-- Python list indexing terms_list[n]: a nonnegative index below the length
selects from the front, a negative index not below -(length) selects from the
end, and anything else raises IndexError. -/
def pyIndex (xs : List ℝ) (n : ℤ) : Except PyEQLError ℝ :=
  if 0 ≤ n then
    if h : n.toNat < xs.length then Except.ok (xs.get ⟨n.toNat, h⟩)
    else Except.error PyEQLError.indexError
  else
    if h : (n + (xs.length : ℤ)).toNat < xs.length ∧ 0 ≤ n + (xs.length : ℤ) then
      Except.ok (xs.get ⟨(n + (xs.length : ℤ)).toNat, h.1⟩)
    else Except.error PyEQLError.indexError

/-- Embedding of alpha (equilibrium.py lines 173-269).  The two guard clauses
of the source log an error and return None; the spec names that failure
InvalidArgumentError.  The numerator is the Python indexing terms_list[n],
which for negative n counts from the end of the list; the denominator is the
sum of all terms. -/
def alpha (n : ℤ) (pH : ℝ) (pKa_list : List ℝ) : Except PyEQLError ℝ :=
  if pKa_list.length = 0 then Except.error PyEQLError.invalidArgument
  else if (pKa_list.length : ℤ) < n then Except.error PyEQLError.invalidArgument
  else
    let Hplus : ℝ := (10 : ℝ) ^ (-pH)
    let tl := terms_list pKa_list Hplus
    match pyIndex tl n with
    | Except.ok numerator => Except.ok (numerator / tl.sum)
    | Except.error e => Except.error e

theorem termsAux_length (pKa_list : List ℝ) (Hplus : ℝ) (p : ℕ) :
    ∀ (fuel item : ℕ) (k_term : ℝ),
      (termsAux pKa_list Hplus p fuel item k_term).length = fuel := by
  intro fuel
  induction fuel with
  | zero => intro item k; rfl
  | succ m ih => intro item k; simp [termsAux, ih]

theorem terms_list_length (pKa_list : List ℝ) (Hplus : ℝ) :
    (terms_list pKa_list Hplus).length = pKa_list.length + 1 :=
  termsAux_length _ _ _ _ _ _

theorem kFactor_pos (pKa_list : List ℝ) (item : ℕ) : 0 < kFactor pKa_list item := by
  apply List.prod_pos
  intro x hx
  obtain ⟨y, _, rfl⟩ := List.mem_map.mp hx
  exact Real.rpow_pos_of_pos (by norm_num) _

theorem termsAux_pos (pKa_list : List ℝ) (Hplus : ℝ) (p : ℕ) (hH : 0 < Hplus) :
    ∀ (fuel item : ℕ) (k_term : ℝ), 0 < k_term →
      ∀ x ∈ termsAux pKa_list Hplus p fuel item k_term, 0 < x := by
  intro fuel
  induction fuel with
  | zero => intro item k _ x hx; simp [termsAux] at hx
  | succ m ih =>
    intro item k hk x hx
    have hk2 : 0 < k * kFactor pKa_list item :=
      mul_pos hk (kFactor_pos pKa_list item)
    simp only [termsAux, List.mem_cons] at hx
    rcases hx with h | h
    · exact h ▸ mul_pos hk2 (pow_pos hH _)
    · exact ih (item + 1) _ hk2 x h

theorem terms_list_pos (pKa_list : List ℝ) (Hplus : ℝ) (hH : 0 < Hplus) :
    ∀ x ∈ terms_list pKa_list Hplus, 0 < x :=
  termsAux_pos _ _ _ hH _ _ _ one_pos

theorem sum_range_getD (l : List ℝ) :
    ∑ i in Finset.range l.length, l.getD i 0 = l.sum := by
  induction l with
  | nil => simp
  | cons a t ih =>
    rw [List.length_cons, Finset.sum_range_succ']
    simp only [List.getD_cons_succ, List.getD_cons_zero, ih, List.sum_cons]
    exact add_comm _ _

theorem pyIndex_natCast (xs : List ℝ) (n : ℕ) (h : n < xs.length) :
    pyIndex xs n = Except.ok (xs.getD n 0) := by
  have ht : ((n : ℤ)).toNat = n := Int.toNat_natCast n
  rw [pyIndex, if_pos (Int.natCast_nonneg n), dif_pos (by rw [ht]; exact h)]
  congr 1
  rw [List.getD_eq_getElem xs 0 h]
  simp [List.get_eq_getElem]

theorem alpha_eq_ok (n : ℕ) (pH : ℝ) (pKa_list : List ℝ) (hne : pKa_list ≠ [])
    (hn : n < pKa_list.length + 1) :
    alpha n pH pKa_list =
      Except.ok ((terms_list pKa_list ((10 : ℝ) ^ (-pH))).getD n 0 /
        (terms_list pKa_list ((10 : ℝ) ^ (-pH))).sum) := by
  have h0 : ¬ pKa_list.length = 0 := by
    simpa [List.length_eq_zero] using hne
  have h1 : ¬ ((pKa_list.length : ℤ) < (n : ℤ)) := by
    exact_mod_cast Nat.not_lt.mpr (Nat.lt_succ_iff.mp hn)
  have hidx : n < (terms_list pKa_list ((10 : ℝ) ^ (-pH))).length := by
    rw [terms_list_length]; exact hn
  rw [alpha, if_neg h0, if_neg h1]
  simp only [pyIndex_natCast _ n hidx]

/-- C4: for every pH and every non-empty pKa list of length p, the alpha values
of the deprotonation levels 0 .. p sum to exactly 1. -/
theorem alpha_sum_one (pH : ℝ) (pKa_list : List ℝ) (hne : pKa_list ≠ []) :
    ∑ n in Finset.range (pKa_list.length + 1),
      ((alpha n pH pKa_list).toOption.getD 0) = 1 := by
  have hH : (0 : ℝ) < (10 : ℝ) ^ (-pH) := Real.rpow_pos_of_pos (by norm_num) _
  set tl := terms_list pKa_list ((10 : ℝ) ^ (-pH)) with htl
  have hlen : tl.length = pKa_list.length + 1 := terms_list_length _ _
  have hpos : ∀ x ∈ tl, 0 < x := terms_list_pos _ _ hH
  have htlne : tl ≠ [] := by
    intro h
    rw [h] at hlen
    exact (Nat.succ_ne_zero _) hlen.symm
  have hsum : 0 < tl.sum := List.sum_pos tl hpos htlne
  have hstep : ∀ n ∈ Finset.range (pKa_list.length + 1),
      (alpha n pH pKa_list).toOption.getD 0 = tl.getD n 0 / tl.sum := by
    intro n hn
    rw [alpha_eq_ok n pH pKa_list hne (Finset.mem_range.mp hn)]
    rfl
  rw [Finset.sum_congr rfl hstep, ← Finset.sum_div, ← hlen, sum_range_getD]
  exact div_self (ne_of_gt hsum)

/-- C4 witness: for the monoprotic list [1] at pH 0, the two alpha values sum
to exactly 1. -/
theorem alpha_sum_one_witness :
    ∑ n in Finset.range (List.length [(1 : ℝ)] + 1),
      ((alpha n 0 [(1 : ℝ)]).toOption.getD 0) = 1 :=
  alpha_sum_one 0 [(1 : ℝ)] (List.cons_ne_nil 1 [])

/-- C9: alpha fails with InvalidArgumentError whenever the pKa list is empty
or holds fewer than n values. -/
theorem alpha_invalid_args (n : ℤ) (pH : ℝ) (pKa_list : List ℝ)
    (h : pKa_list = [] ∨ (pKa_list.length : ℤ) < n) :
    alpha n pH pKa_list = Except.error PyEQLError.invalidArgument := by
  rcases h with h | h
  · rw [alpha, if_pos (by rw [h]; rfl)]
  · rw [alpha]
    by_cases h0 : pKa_list.length = 0
    · rw [if_pos h0]
    · rw [if_neg h0, if_pos h]

/-- C9 witness: alpha 2 7 [5.0] fails with InvalidArgumentError, the requested
level 2 exceeding the single available pKa value. -/
theorem alpha_invalid_args_witness :
    alpha 2 7 [(5 : ℝ)] = Except.error PyEQLError.invalidArgument ∧
    ((List.length [(5 : ℝ)] : ℤ) < 2) :=
  ⟨alpha_invalid_args 2 7 [(5 : ℝ)] (Or.inr (by simp)), by simp⟩

theorem alpha_eq_match (n : ℤ) (pH : ℝ) (pKa_list : List ℝ)
    (h0 : ¬ pKa_list.length = 0) (h1 : ¬ ((pKa_list.length : ℤ) < n)) :
    alpha n pH pKa_list =
      match pyIndex (terms_list pKa_list ((10 : ℝ) ^ (-pH))) n with
      | Except.ok numerator =>
          Except.ok (numerator / (terms_list pKa_list ((10 : ℝ) ^ (-pH))).sum)
      | Except.error e => Except.error e := by
  rw [alpha, if_neg h0, if_neg h1]

theorem pyIndex_neg_eq (xs : List ℝ) (n : ℤ) (hn : n < 0)
    (h0 : 0 ≤ n + (xs.length : ℤ)) :
    pyIndex xs n = pyIndex xs (n + (xs.length : ℤ)) := by
  have hm : (n + (xs.length : ℤ)).toNat < xs.length := by omega
  rw [pyIndex, if_neg (not_le.mpr hn), dif_pos ⟨hm, h0⟩, pyIndex, if_pos h0, dif_pos hm]

/-- C10: alpha accepts a negative deprotonation index n between -(p+1) and -1
without error, returning the same value as for the index n + p + 1 selected
from the end of the term list. -/
theorem alpha_negative_index (n : ℤ) (pH : ℝ) (pKa_list : List ℝ)
    (hne : pKa_list ≠ []) (hlo : -((pKa_list.length : ℤ) + 1) ≤ n) (hhi : n ≤ -1) :
    alpha n pH pKa_list = alpha (n + pKa_list.length + 1) pH pKa_list ∧
    ∃ x, alpha n pH pKa_list = Except.ok x := by
  have h0 : ¬ pKa_list.length = 0 := by
    simpa [List.length_eq_zero] using hne
  have h1 : ¬ ((pKa_list.length : ℤ) < n) := by omega
  have h2 : ¬ ((pKa_list.length : ℤ) < n + pKa_list.length + 1) := by omega
  have hlen : (terms_list pKa_list ((10 : ℝ) ^ (-pH))).length = pKa_list.length + 1 :=
    terms_list_length _ _
  have hpy : pyIndex (terms_list pKa_list ((10 : ℝ) ^ (-pH))) n =
      pyIndex (terms_list pKa_list ((10 : ℝ) ^ (-pH))) (n + pKa_list.length + 1) := by
    rw [pyIndex_neg_eq _ n (by omega) (by rw [hlen]; push_cast; omega)]
    congr 1
    rw [hlen]
    push_cast
    ring
  have hsome : ∃ v, pyIndex (terms_list pKa_list ((10 : ℝ) ^ (-pH))) n = Except.ok v := by
    rw [pyIndex, if_neg (not_le.mpr (by omega : n < 0)),
      dif_pos ⟨by rw [hlen]; omega, by rw [hlen]; push_cast; omega⟩]
    exact ⟨_, rfl⟩
  obtain ⟨v, hv⟩ := hsome
  constructor
  · rw [alpha_eq_match n pH pKa_list h0 h1, alpha_eq_match _ pH pKa_list h0 h2, hpy]
  · rw [alpha_eq_match n pH pKa_list h0 h1, hv]
    exact ⟨_, rfl⟩

/-- C10 witness: for the monoprotic list [1] at pH 0, alpha at index -1 equals
alpha at index 1 and returns an ok value. -/
theorem alpha_negative_index_witness :
    (alpha (-1) 0 [(1 : ℝ)] = alpha ((-1) + (List.length [(1 : ℝ)] : ℤ) + 1) 0 [(1 : ℝ)] ∧
      ∃ x, alpha (-1) 0 [(1 : ℝ)] = Except.ok x) :=
  alpha_negative_index (-1) 0 [(1 : ℝ)] (List.cons_ne_nil 1 [])
    (by simp) (by norm_num)

/-- Modelled from the spec (section 4.3, step 4), for comparison only: term i
is (product of 10^(-pKa_j) for j in 0..i-1) times Hplus^(p-i), with every
dissociation constant appearing at most once in a term. -/
def term_spec (pKa_list : List ℝ) (pH : ℝ) (i : ℕ) : ℝ :=
  ((pKa_list.take i).map (fun x => (10 : ℝ) ^ (-x))).prod *
    ((10 : ℝ) ^ (-pH)) ^ (pKa_list.length - i)

/-- Modelled from the spec (section 4.3, step 5), for comparison only:
alpha_n = term n / sum of the terms 0 .. p. -/
def alpha_spec (n : ℕ) (pH : ℝ) (pKa_list : List ℝ) : ℝ :=
  term_spec pKa_list pH n /
    ∑ i in Finset.range (pKa_list.length + 1), term_spec pKa_list pH i

theorem rpow_ten_neg_one : (10 : ℝ) ^ (-(1 : ℝ)) = 1 / 10 := by
  rw [Real.rpow_neg (by norm_num : (0 : ℝ) ≤ 10), Real.rpow_one]
  norm_num

/-- Unfolding of the outer loop for a two-value pKa list: the source carries
k_term over from one iteration to the next, so the kFactor products pile up. -/
theorem terms_list_pair (a b : ℝ) (H : ℝ) :
    terms_list [a, b] H =
      [1 * kFactor [a, b] 0 * H ^ 2,
       1 * kFactor [a, b] 0 * kFactor [a, b] 1 * H ^ 1,
       1 * kFactor [a, b] 0 * kFactor [a, b] 1 * kFactor [a, b] 2 * H ^ 0] :=
  rfl

/-- C2 (the code disagrees with the claimed formula): at n = 2, pH = 0,
pKa_list = [1, 1], the code returns 1/1101 — its last term is
10^(-pKa_0) * (10^(-pKa_0) * 10^(-pKa_1)) because k_term is never reset —
while the formula of the claim gives 1/111 with last term
10^(-pKa_0) * 10^(-pKa_1). -/
theorem alpha_accumulation_divergence :
    alpha 2 0 [(1 : ℝ), 1] = Except.ok (1 / 1101) ∧
    alpha_spec 2 0 [(1 : ℝ), 1] = 1 / 111 ∧
    alpha 2 0 [(1 : ℝ), 1] ≠ Except.ok (alpha_spec 2 0 [(1 : ℝ), 1]) := by
  have hH : (10 : ℝ) ^ (-(0 : ℝ)) = 1 := by
    rw [neg_zero, Real.rpow_zero]
  have hk0 : kFactor [(1 : ℝ), 1] 0 = 1 := by
    simp [kFactor]
  have hk1 : kFactor [(1 : ℝ), 1] 1 = 1 / 10 := by
    simp [kFactor, rpow_ten_neg_one]
  have hk2 : kFactor [(1 : ℝ), 1] 2 = 1 / 100 := by
    simp [kFactor, rpow_ten_neg_one]
    norm_num
  have htl : terms_list [(1 : ℝ), 1] ((10 : ℝ) ^ (-(0 : ℝ))) = [1, 1 / 10, 1 / 1000] := by
    rw [hH, terms_list_pair, hk0, hk1, hk2]
    norm_num
  have hfirst : alpha 2 0 [(1 : ℝ), 1] = Except.ok (1 / 1101) := by
    rw [alpha_eq_match 2 0 [(1 : ℝ), 1] (by norm_num) (by norm_num), htl]
    have hp : pyIndex [(1 : ℝ), 1 / 10, 1 / 1000] 2 = Except.ok (1 / 1000) := by
      rw [pyIndex, if_pos (by norm_num), dif_pos (by norm_num)]
      rfl
    rw [hp]
    norm_num
  have ht0 : term_spec [(1 : ℝ), 1] 0 0 = 1 := by
    simp [term_spec, hH]
  have ht1 : term_spec [(1 : ℝ), 1] 0 1 = 1 / 10 := by
    simp [term_spec, hH, rpow_ten_neg_one]
  have ht2 : term_spec [(1 : ℝ), 1] 0 2 = 1 / 100 := by
    simp [term_spec, hH, rpow_ten_neg_one]
    norm_num
  have hsecond : alpha_spec 2 0 [(1 : ℝ), 1] = 1 / 111 := by
    simp only [alpha_spec, List.length_cons, List.length_nil, Nat.zero_add]
    rw [show (0 + 1 + 1 + 1 : ℕ) = 2 + 1 from rfl, Finset.sum_range_succ,
      Finset.sum_range_succ, Finset.sum_range_one, ht0, ht1, ht2]
    norm_num
  refine ⟨hfirst, hsecond, ?_⟩
  rw [hfirst, hsecond]
  intro h
  exact absurd (Except.ok.inj h) (by norm_num)
/-- C5 counterexample: 25 degC and 298.15 K are the same physical temperature,
yet adjust_temp_pitzer (coefficients 0,0,0,1,0) gives different results for
the two representations, because the source never converts temp to kelvin. -/
theorem pitzer_not_unit_invariant :
    (Quantity.mk 25 TempUnit.degC).toK = (Quantity.mk 298.15 TempUnit.kelvin).toK ∧
    adjust_temp_pitzer 0 0 0 1 0 ⟨25, TempUnit.degC⟩ ⟨298.15, TempUnit.kelvin⟩ ≠
      adjust_temp_pitzer 0 0 0 1 0 ⟨298.15, TempUnit.kelvin⟩ ⟨298.15, TempUnit.kelvin⟩ := by
  constructor
  · norm_num [Quantity.toK]
  · simp only [adjust_temp_pitzer]
    norm_num

/-! ### Solute (solute.py): construction, parameter lookup, mobility -/

/-- The chemical-formula collaborator (pyEQL.chemical_formula), an external
black box per spec section 6: a validity test, a molecular weight and a formal
charge, each a function of the formula string. -/
structure ChemModule where
  is_valid_formula : String → Bool
  get_molecular_weight : String → ℝ
  get_formal_charge : String → ℤ

/-- A Solute object once construction has run its else branch: formula,
molecular weight, formal charge and amount of substance in moles. -/
structure Solute where
  formula : String
  mw : ℝ
  charge : ℤ
  moles : ℝ

/-- Outcome of Solute.__init__: either the else branch ran and every attribute
was set, or the early return ran and the returned object has no attributes. -/
inductive SoluteInitResult where
  | initialized (s : Solute)
  | uninitialized

/-- Python truthiness of the expression chem.is_valid_formula in the guard of
solute.py line 52: the function object itself is tested (the source never
calls it on the formula), and a function object is always truthy. -/
def function_object_truthy : Bool := true

/-- Embedding of Solute.__init__ (solute.py lines 31-74).  The guard reads
`if not chem.is_valid_formula:` — the truthiness of the validator function
object, which never holds — and even its body only logs and returns, which in
Python yields the object with no attributes rather than raising.  The amount
conversion through the quantity system (an external collaborator) is the
function toMoles. -/
def solute_init (chem : ChemModule) (toMoles : ℝ → ℝ)
    (formula : String) (amount : ℝ) : SoluteInitResult :=
  if ¬ function_object_truthy then
    SoluteInitResult.uninitialized
  else
    SoluteInitResult.initialized
      { formula := formula
        mw := chem.get_molecular_weight formula
        charge := chem.get_formal_charge formula
        moles := toMoles amount }

/-- A chemical-formula module that rejects every formula, for exercising the
construction path on invalid input. -/
def reject_all_chem : ChemModule :=
  ⟨fun _ => false, fun _ => 0, fun _ => 0⟩

/-- C1 (the code does not do what the claim states): construction always
returns a fully initialized Solute, whatever the validator says; in particular
for a formula the validator rejects, no InvalidFormulaError (indeed no error
of any kind) interrupts construction. -/
theorem solute_init_ignores_validation :
    (∀ (chem : ChemModule) (toMoles : ℝ → ℝ) (formula : String) (amount : ℝ),
      solute_init chem toMoles formula amount =
        SoluteInitResult.initialized
          ⟨formula, chem.get_molecular_weight formula,
            chem.get_formal_charge formula, toMoles amount⟩) ∧
    reject_all_chem.is_valid_formula "XYZ!!" = false ∧
    solute_init reject_all_chem (fun a => a) "XYZ!!" 1 =
      SoluteInitResult.initialized ⟨"XYZ!!", 0, 0, 1⟩ :=
  ⟨fun _ _ _ _ => rfl, rfl, rfl⟩

/-- One record of the Parameter Store: a name, and a value resolved under the
queried conditions (temperature, pressure, ionic strength) by its get_value
method — condition handling itself is a black box of the store. -/
structure Parameter where
  p_name : String
  get_value : Option ℝ → Option ℝ → Option ℝ → ℝ

/-- The Parameter Store: species formula to the records held for it, in
iteration order; a formula absent from the store is an unpopulated species. -/
def ParamDB : Type := List (String × List Parameter)

/-- Embedding of Solute.get_parameter (solute.py lines 76-100): if the formula
is in the store, the first record whose name matches is resolved; a populated
species without a matching record logs ParameterNotFoundError, an unpopulated
species logs SpeciesNotFoundError (both logged errors, embedded as the error
values the spec taxonomy names for those two sites). -/
def get_parameter (db : ParamDB) (s : Solute) (parameter : String)
    (temperature pressure ionic_strength : Option ℝ) : Except PyEQLError ℝ :=
  match List.lookup s.formula db with
  | some items =>
    match items.find? (fun item => item.p_name == parameter) with
    | some item => Except.ok (item.get_value temperature pressure ionic_strength)
    | none => Except.error PyEQLError.parameterNotFound
  | none => Except.error PyEQLError.speciesNotFound

/-- C3: on a species with an entry in the store, get_parameter fails with
ParameterNotFoundError whenever no record carries the requested name; on a
species with no entry at all it fails with the distinct SpeciesNotFoundError. -/
theorem get_parameter_error_cases (db : ParamDB) (s : Solute) (parameter : String)
    (temperature pressure ionic_strength : Option ℝ) :
    (∀ items, List.lookup s.formula db = some items →
      (∀ item ∈ items, item.p_name ≠ parameter) →
      get_parameter db s parameter temperature pressure ionic_strength =
        Except.error PyEQLError.parameterNotFound) ∧
    (List.lookup s.formula db = none →
      get_parameter db s parameter temperature pressure ionic_strength =
        Except.error PyEQLError.speciesNotFound) := by
  constructor
  · intro items hitems hnone
    have hfind : items.find? (fun item => item.p_name == parameter) = none := by
      rw [List.find?_eq_none]
      intro item hmem
      simpa using hnone item hmem
    simp only [get_parameter, hitems, hfind]
  · intro hnone
    simp only [get_parameter, hnone]

/-- A one-species store holding a single diffusion coefficient record for the
formula Na+. -/
def db_na : ParamDB :=
  [("Na+", [⟨"diffusion_coefficient", fun _ _ _ => 1.33e-9⟩])]

/-- A Solute for the populated species Na+. -/
def s_na : Solute := ⟨"Na+", 22.99, 1, 1⟩

/-- A Solute for a species the store has no entry for. -/
def s_kr : Solute := ⟨"Kr", 83.8, 0, 1⟩

/-- C3 witness: on the populated species Na+ the lookup of a nonexistent name
fails with ParameterNotFoundError, and on the unpopulated species Kr it fails
with SpeciesNotFoundError. -/
theorem get_parameter_error_cases_witness :
    get_parameter db_na s_na "nonexistent" none none none =
      Except.error PyEQLError.parameterNotFound ∧
    get_parameter db_na s_kr "nonexistent" none none none =
      Except.error PyEQLError.speciesNotFound := by
  constructor
  · exact (get_parameter_error_cases db_na s_na "nonexistent" none none none).1
      [⟨"diffusion_coefficient", fun _ _ _ => 1.33e-9⟩] (by rfl)
      (by intro item hmem; simp [db_na] at hmem; rw [hmem]; decide)
  · exact (get_parameter_error_cases db_na s_kr "nonexistent" none none none).2 (by rfl)

/-- Embedding of Solute.get_mobility (solute.py lines 230-259).  The Einstein
relation line computes N_A * e * |z| * D / (R * T); the next line,
logger.info(str % mobility, self.get_diffusion_coefficient(), temperature),
percent-formats a three-directive string with the single argument mobility,
which raises TypeError (and Solute has no method get_diffusion_coefficient),
so the computed value is never returned.  A failed parameter lookup returns
None in the source, and multiplying by None would likewise raise TypeError;
the embedding keeps the lookup error to keep the two miss cases apart. -/
def get_mobility (db : ParamDB) (s : Solute) (temperature : Quantity) :
    Except PyEQLError ℝ :=
  match get_parameter db s "diffusion_coefficient" none none none with
  | Except.ok D =>
    let _mobility := N_A * e_charge * |(s.charge : ℝ)| * D / (R_gas * temperature.mag)
    Except.error PyEQLError.typeError
  | Except.error e => Except.error e

/-- C6 (the code cannot return the mobility): for the populated solute Na+ the
diffusion coefficient resolves, the Einstein-relation value is
N_A * e * |z| * D / (R * T), and yet get_mobility ends in TypeError — the
malformed logging line fires before the return — so no value, in particular
not the claimed mobility, is returned. -/
theorem get_mobility_log_crash :
    get_parameter db_na s_na "diffusion_coefficient" none none none =
      Except.ok 1.33e-9 ∧
    get_mobility db_na s_na ⟨298.15, TempUnit.kelvin⟩ =
      Except.error PyEQLError.typeError ∧
    ∀ v : ℝ, get_mobility db_na s_na ⟨298.15, TempUnit.kelvin⟩ ≠ Except.ok v := by
  refine ⟨rfl, rfl, ?_⟩
  intro v h
  rw [(rfl : get_mobility db_na s_na ⟨298.15, TempUnit.kelvin⟩ =
    Except.error PyEQLError.typeError)] at h
  exact Except.noConfusion h
